import Mathlib

/-!
Verification of the record-scoring and group-relative-filtering pipeline of
`excel_processor_app_en.py` (function `process_excel`) against its
natural-language specification.

Modelling conventions (shallow embedding):
* pandas float columns are modelled as `Option ℚ`: `none` is the missing
  value NaN produced by `pd.to_numeric(errors='coerce')`, `some q` is an
  ordinary numeric value.  All claims at stake are robust to the
  float-vs-rational distinction (no claim hinges on float rounding error).
* a DataFrame is a list of rows in source order; column additions are
  modelled by wrapper structures (`SRow` adds `SCORE`, `ARow` adds
  `AVG_SCORE`).
* Python's `round(x, 2)` rounds half to even; `round2` mirrors that.
-/

namespace ExcelProc

/-- The allowed OVACLS codes, line 10 of `excel_processor_app_en.py`:
`ALLOWED_OVACLS = [201, ..., 212, 234, 295]`. -/
def ALLOWED_OVACLS : List ℚ :=
  [201, 202, 203, 204, 205, 206, 207, 208, 209, 210, 211, 212, 234, 295]

/-- A PIN cell as it appears in source data: numeric or string
(the spec notes the identifier "may appear as string or numeric"). -/
inductive PinVal where
  | num : ℚ → PinVal
  | str : String → PinVal
deriving DecidableEq

/-- One input row after the numeric coercions of lines 67, 97, 98
(`pd.to_numeric(..., errors='coerce')`): `none` is NaN (failed coercion).
`NEIGHBORHOOD` is kept as the string used to build the `GROUP` key and to
sort; `other` stands for the arbitrary passthrough columns. -/
structure Row where
  ovacls : Option ℚ
  neighborhood : String
  building_sq_ft : Option ℚ
  current_building : Option ℚ
  pin : Option PinVal
  other : ℕ
deriving DecidableEq

/-- Line 78: `df = df[df["OVACLS"].isin(ALLOWED_OVACLS)]`.  `isin` is false
on NaN, so a row whose OVACLS failed coercion is dropped. -/
def restrictOvacls (t : List Row) : List Row :=
  t.filter fun r =>
    match r.ovacls with
    | some q => decide (q ∈ ALLOWED_OVACLS)
    | none => false

/-- Lines 101-105: every row with `BUILDING_SQ_FT == 0` has that cell
replaced by `0.0001`. -/
def fixSqft (r : Row) : Row :=
  if r.building_sq_ft = some 0 then
    { r with building_sq_ft := some (1 / 10000) }
  else r

/-- Round half to even, as Python's built-in `round` does on the nearest
integer. -/
def rndHalfEven (x : ℚ) : ℤ :=
  if x - ⌊x⌋ = (1 : ℚ) / 2 then (if Even ⌊x⌋ then ⌊x⌋ else ⌊x⌋ + 1)
  else round x

/-- Python's `round(x, 2)`. -/
def round2 (x : ℚ) : ℚ := ((rndHalfEven (100 * x) : ℤ) : ℚ) / 100

/-- Lines 126-130: the `SCORE` lambda
`round(row["CURRENT_BUILDING"] / row["BUILDING_SQ_FT"], 2) if
row["BUILDING_SQ_FT"] > 0 else 0`.  Note `NaN > 0` is false in pandas, so a
NaN denominator yields `0`; a NaN numerator with positive denominator
propagates to a NaN score. -/
def scoreVal (r : Row) : Option ℚ :=
  match r.building_sq_ft with
  | some a =>
      if 0 < a then
        match r.current_building with
        | some b => some (round2 (b / a))
        | none => none
      else some 0
  | none => some 0

/-- A row together with its computed `SCORE` column. -/
structure SRow where
  row : Row
  score : Option ℚ
deriving DecidableEq

/-- Score one (already sq-ft-fixed) row. -/
def mkSRow (r : Row) : SRow := ⟨r, scoreVal r⟩

/-- The table after OVACLS restriction (line 78), zero-sq-ft replacement
(line 105) and `SCORE` computation (line 126). -/
def scoreTable (t : List Row) : List SRow :=
  (restrictOvacls t).map fun r => mkSRow (fixSqft r)

/-- Line 147: `df['GROUP'] = df['OVACLS'].astype(str) + '_' +
df['NEIGHBORHOOD'].astype(str)`.  Since `str` of a coerced OVACLS number
contains no underscore and is injective on the numeric OVACLS values, two
rows get the same `GROUP` string iff they agree on the pair below, so the
key is modelled as that pair. -/
def groupKey (s : SRow) : Option ℚ × String :=
  (s.row.ovacls, s.row.neighborhood)

/-- pandas `Series.mean()` with its default `skipna=True`: NaN entries are
ignored; the mean of an all-NaN (or empty) series is NaN. -/
def pandasMean (vs : List (Option ℚ)) : Option ℚ :=
  let ws := vs.filterMap id
  if ws = [] then none else some (ws.sum / ws.length)

/-- The distinct `GROUP` keys occurring in the table (the index of the
line 163 `groupby`; the order of the keys is irrelevant to the merge). -/
def groupKeys (t : List SRow) : List (Option ℚ × String) :=
  (t.map groupKey).dedup

/-- Line 163-164: `group_avg_scores = df.groupby('GROUP')['SCORE'].mean()`,
one `(GROUP, AVG_SCORE)` pair per distinct key. -/
def avgTable (t : List SRow) : List ((Option ℚ × String) × Option ℚ) :=
  (groupKeys t).map fun g =>
    (g, pandasMean ((t.filter fun s => decide (groupKey s = g)).map SRow.score))

/-- The left-merge lookup of line 192: the `AVG_SCORE` attached to a row
whose key is `g` (a key absent from the table would merge as NaN). -/
def lookupAvg (tab : List ((Option ℚ × String) × Option ℚ))
    (g : Option ℚ × String) : Option ℚ :=
  match tab.find? fun p => decide (p.1 = g) with
  | some p => p.2
  | none => none

/-- A row with its `SCORE` and merged `AVG_SCORE` columns. -/
structure ARow where
  row : Row
  score : Option ℚ
  avg : Option ℚ
deriving DecidableEq

/-- Line 192: `df = pd.merge(df, group_avg_scores, on='GROUP', how='left')`:
every row is annotated with its group's average score. -/
def annotateTable (t : List SRow) : List ARow :=
  t.map fun s => ⟨s.row, s.score, lookupAvg (avgTable t) (groupKey s)⟩

/-- The pandas comparison `SCORE > AVG_SCORE`: false whenever either side
is NaN. -/
def optGt (x y : Option ℚ) : Bool :=
  match x, y with
  | some a, some b => decide (b < a)
  | _, _ => false

/-- Line 198: `df_above_avg = df[df['SCORE'] > df['AVG_SCORE']]`. -/
def filterAboveAvg (t : List ARow) : List ARow :=
  t.filter fun a => optGt a.score a.avg

/-- Ascending comparison on a float column, NaN last
(pandas `na_position='last'`). -/
def ovLe (x y : Option ℚ) : Bool :=
  match x, y with
  | _, none => true
  | none, some _ => false
  | some a, some b => decide (a ≤ b)

/-- Descending comparison on a float column, NaN last. -/
def scLe (x y : Option ℚ) : Bool :=
  match x, y with
  | none, some _ => false
  | none, none => true
  | some _, none => true
  | some a, some b => decide (b ≤ a)

/-- Ascending comparison on the NEIGHBORHOOD column. -/
def strLe (x y : String) : Bool := decide (x ≤ y)

/-- Lexicographic combination of two comparisons: compare the second
components only when the first components are equal. -/
def lexB {α β : Type} [DecidableEq α] (le1 : α → α → Bool)
    (le2 : β → β → Bool) (x y : α × β) : Bool :=
  if x.1 = y.1 then le2 x.2 y.2 else le1 x.1 y.1

/-- The three sort keys of line 220, in significance order. -/
def sortKey (a : ARow) : Option ℚ × String × Option ℚ :=
  (a.row.ovacls, a.row.neighborhood, a.score)

/-- The lexicographic row order of line 220:
`sort_values(by=['OVACLS', 'NEIGHBORHOOD', 'SCORE'],
ascending=[True, True, False])`. -/
def rowLe (a b : ARow) : Bool :=
  lexB ovLe (lexB strLe scLe) (sortKey a) (sortKey b)

/-- Line 220: the multi-key `sort_values`, which pandas performs with the
stable `np.lexsort` when several keys are given; modelled by the stable
`List.mergeSort`. -/
def sortRows (t : List ARow) : List ARow := t.mergeSort rowLe

/-- The pre-sort table: everything up to and including the above-average
filter of line 198. -/
def preSortTable (t : List Row) : List ARow :=
  filterAboveAvg (annotateTable (scoreTable t))

/-- The rows of the final result `df_above_avg` (line 268), in output
order. -/
def outputRows (t : List Row) : List ARow := sortRows (preSortTable t)

/-- The main pipeline on an already-loaded, schema-checked table: the only
failure after loading is line 86, `raise ValueError("No records found with
allowed OVACLS codes")`, raised exactly when the OVACLS restriction leaves
zero rows.  An empty result of the later above-average filter is returned
as an empty table, not an error. -/
def mainPipeline (t : List Row) : Except String (List ARow) :=
  if restrictOvacls t = [] then
    .error "No records found with allowed OVACLS codes"
  else
    .ok (outputRows t)

/-- Modelled from the spec: the PIN lookup's integer coercion (the PIN
pipeline itself is not in this revision of `src/excel_processor_app_en.py`;
only the unused `pin=None` parameter of line 12 remains). -/
def pinToInt : PinVal → Option ℤ
  | .num q => if q.den = 1 then some q.num else none
  | .str s => s.toInt?

/-- Modelled from the spec: the PIN lookup's string coercion. -/
def pinToStr : PinVal → String
  | .num q => toString q
  | .str s => s

/-- First row matching a predicate, in source order. -/
def firstMatch (t : List Row) (p : Row → Bool) : Option Row :=
  (t.filter p).head?

/-- Modelled from the spec (4.5 step 1): resolve the reference record by
identifier, trying exact match, then integer-coerced match, then
string-coerced match, stopping at the first non-empty match and taking the
first matching row in source order. -/
def resolveRef (t : List Row) (pid : PinVal) : Option Row :=
  match firstMatch t fun r => decide (r.pin = some pid) with
  | some r => some r
  | none =>
    match firstMatch t fun r =>
        match r.pin with
        | some p => (pinToInt p).isSome && decide (pinToInt p = pinToInt pid)
        | none => false with
    | some r => some r
    | none =>
      firstMatch t fun r =>
        match r.pin with
        | some p => decide (pinToStr p = pinToStr pid)
        | none => false

/-- Modelled from the spec (4.5 step 3): the inclusive tolerance band
`[area_ref * (1 - p), area_ref * (1 + p)]` with `p = tolerance / 100`. -/
def pinBand (tol ar a : ℚ) : Bool :=
  decide (ar * (1 - tol / 100) ≤ a) && decide (a ≤ ar * (1 + tol / 100))

/-- Modelled from the spec (4.5 step 4): the peers of the scored reference:
area within the band, score strictly below the reference's, same category
code and same zone. -/
def pinPeers (t : List Row) (ref : Row) (tol : ℚ) : List SRow :=
  (t.map fun r => mkSRow (fixSqft r)).filter fun s =>
    (match s.row.building_sq_ft, (mkSRow (fixSqft ref)).row.building_sq_ft with
     | some a, some ar => pinBand tol ar a
     | _, _ => false)
    && optGt (mkSRow (fixSqft ref)).score s.score
    && decide (s.row.ovacls = (mkSRow (fixSqft ref)).row.ovacls)
    && decide (s.row.neighborhood = (mkSRow (fixSqft ref)).row.neighborhood)

/-- Modelled from the spec (4.5 steps 2-5): score all records as in the
main pipeline, keep the peers, and return the scored reference record
prepended to those peers. -/
def matchPeers (t : List Row) (pid : PinVal) (tol : ℚ) :
    Except String (List SRow) :=
  match resolveRef t pid with
  | none => .error "PIN not found"
  | some ref => .ok (mkSRow (fixSqft ref) :: pinPeers t ref tol)

/-- Modelled from the spec (6, CLI/invocation surface): the entry point
runs the PIN pipeline exactly when an identifier argument is supplied, and
the main pipeline otherwise. -/
def processEntry (t : List Row) (pid : Option PinVal) (tol : ℚ) :
    Except String (List ARow ⊕ List SRow) :=
  match pid with
  | none => (mainPipeline t).map .inl
  | some i => (matchPeers t i tol).map .inr

/-- Line 41: `required_columns = ["OVACLS", "NEIGHBORHOOD",
"BUILDING_SQ_FT", "CURRENT_BUILDING"]`. -/
def requiredColumns : List String :=
  ["OVACLS", "NEIGHBORHOOD", "BUILDING_SQ_FT", "CURRENT_BUILDING"]

/-- Line 44: `missing_columns = [col for col in required_columns if col not
in df.columns]`. -/
def missingColumns (cols : List String) : List String :=
  requiredColumns.filter fun c => !(cols.contains c)

/-- Lines 46-48: the schema check, raising
`ValueError("Missing columns: ...")` listing every missing column. -/
def checkSchema (cols : List String) : Except String Unit :=
  if missingColumns cols = [] then .ok ()
  else .error ("Missing columns: " ++ String.intercalate ", " (missingColumns cols))

/-! Concrete tables used to exercise the pipeline on closed inputs. -/

/-- A row with OVACLS 201, zone "A", area 1, improvement value 10. -/
def rA : Row := ⟨some 201, "A", some 1, some 10, none, 0⟩

/-- A row with OVACLS 201, zone "A", area 1, improvement value 20. -/
def rB : Row := ⟨some 201, "A", some 1, some 20, none, 1⟩

/-- A two-row table whose group mean score is 15, so only `rB` (score 20)
survives the above-average filter. -/
def tAB : List Row := [rA, rB]

/-- The scored rows of `tAB`. -/
def sA : SRow := ⟨rA, some 10⟩

/-- The scored rows of `tAB`. -/
def sB : SRow := ⟨rB, some 20⟩

/-- The annotated rows of `tAB`. -/
def aA : ARow := ⟨rA, some 10, some 15⟩

/-- The annotated rows of `tAB`. -/
def aB : ARow := ⟨rB, some 20, some 15⟩

/-- A row with an originally-zero area (scored 50000 after the epsilon
substitution). -/
def rZ : Row := ⟨some 201, "Z", some 0, some 5, none, 0⟩

/-- A peer of `rZ` with score 10. -/
def rW : Row := ⟨some 201, "Z", some 1, some 10, none, 1⟩

/-- A table where the zero-area row survives (50000 > mean 25005). -/
def tZW : List Row := [rZ, rW]

/-- The surviving output row of `tZW`: its area column shows `0.0001`. -/
def outRowZ : ARow :=
  ⟨⟨some 201, "Z", some (1 / 10000), some 5, none, 0⟩, some 50000, some 25005⟩

/-- Two rows tied at score 10 in the same group: none survives. -/
def rT1 : Row := ⟨some 201, "T", some 1, some 10, none, 0⟩

/-- Two rows tied at score 10 in the same group: none survives. -/
def rT2 : Row := ⟨some 201, "T", some 1, some 10, none, 1⟩

/-- The all-tie table. -/
def tTie : List Row := [rT1, rT2]

/-- A table with no allowed OVACLS code at all. -/
def tBad : List Row := [⟨some 999, "A", some 1, some 1, none, 0⟩]

/-- PIN-pipeline reference row: PIN "X", area 100, value 5000, score 50. -/
def refP : Row := ⟨some 201, "P", some 100, some 5000, some (.str "X"), 0⟩

/-- PIN-pipeline peer row: same group, area 100, value 2500, score 25. -/
def peerP : Row := ⟨some 201, "P", some 100, some 2500, some (.str "Y"), 1⟩

/-- The PIN example table. -/
def tPin : List Row := [refP, peerP]

/-! Helper lemmas about the comparison functions. -/

theorem ovLe_total (x y : Option ℚ) : ovLe x y = true ∨ ovLe y x = true := by
  cases x <;> cases y <;> simp [ovLe]
  exact le_total _ _

theorem ovLe_trans {x y z : Option ℚ} (h1 : ovLe x y = true)
    (h2 : ovLe y z = true) : ovLe x z = true := by
  cases x <;> cases y <;> cases z <;> simp_all [ovLe]
  exact le_trans h1 h2

theorem ovLe_antisymm {x y : Option ℚ} (h1 : ovLe x y = true)
    (h2 : ovLe y x = true) : x = y := by
  cases x <;> cases y <;> simp_all [ovLe]
  exact le_antisymm h1 h2

theorem scLe_total (x y : Option ℚ) : scLe x y = true ∨ scLe y x = true := by
  cases x <;> cases y <;> simp [scLe]
  exact le_total _ _

theorem scLe_trans {x y z : Option ℚ} (h1 : scLe x y = true)
    (h2 : scLe y z = true) : scLe x z = true := by
  cases x <;> cases y <;> cases z <;> simp_all [scLe]
  exact le_trans h2 h1

theorem scLe_refl (x : Option ℚ) : scLe x x = true := by
  cases x <;> simp [scLe]

theorem strLe_total (x y : String) : strLe x y = true ∨ strLe y x = true := by
  rcases le_total x y with h | h
  · exact Or.inl (decide_eq_true h)
  · exact Or.inr (decide_eq_true h)

theorem strLe_trans {x y z : String} (h1 : strLe x y = true)
    (h2 : strLe y z = true) : strLe x z = true :=
  decide_eq_true (le_trans (of_decide_eq_true h1) (of_decide_eq_true h2))

theorem strLe_antisymm {x y : String} (h1 : strLe x y = true)
    (h2 : strLe y x = true) : x = y :=
  le_antisymm (of_decide_eq_true h1) (of_decide_eq_true h2)

theorem lexB_total {α β : Type} [DecidableEq α] (le1 : α → α → Bool)
    (le2 : β → β → Bool)
    (h1 : ∀ x y, le1 x y = true ∨ le1 y x = true)
    (h2 : ∀ x y, le2 x y = true ∨ le2 y x = true)
    (x y : α × β) : lexB le1 le2 x y = true ∨ lexB le1 le2 y x = true := by
  unfold lexB
  by_cases h : x.1 = y.1
  · simp [h, h2 x.2 y.2]
  · have h' : ¬ y.1 = x.1 := fun hh => h hh.symm
    simp [h, h', h1 x.1 y.1]

theorem lexB_trans {α β : Type} [DecidableEq α] (le1 : α → α → Bool)
    (le2 : β → β → Bool)
    (h1t : ∀ x y z, le1 x y = true → le1 y z = true → le1 x z = true)
    (h1a : ∀ x y, le1 x y = true → le1 y x = true → x = y)
    (h2t : ∀ x y z, le2 x y = true → le2 y z = true → le2 x z = true)
    {x y z : α × β} (hxy : lexB le1 le2 x y = true)
    (hyz : lexB le1 le2 y z = true) : lexB le1 le2 x z = true := by
  unfold lexB at *
  by_cases e1 : x.1 = y.1
  · by_cases e2 : y.1 = z.1
    · have e3 : x.1 = z.1 := e1.trans e2
      rw [if_pos e1] at hxy
      rw [if_pos e2] at hyz
      rw [if_pos e3]
      exact h2t _ _ _ hxy hyz
    · have e3 : ¬ x.1 = z.1 := fun h => e2 (e1 ▸ h)
      rw [if_neg e2] at hyz
      rw [if_neg e3, e1]
      exact hyz
  · by_cases e2 : y.1 = z.1
    · have e3 : ¬ x.1 = z.1 := fun h => e1 (h.trans e2.symm)
      rw [if_neg e1] at hxy
      rw [if_neg e3, ← e2]
      exact hxy
    · rw [if_neg e1] at hxy
      rw [if_neg e2] at hyz
      by_cases e3 : x.1 = z.1
      · exact absurd (h1a _ _ hxy (e3.symm ▸ hyz)) e1
      · rw [if_neg e3]
        exact h1t _ _ _ hxy hyz

theorem lexB_refl {α β : Type} [DecidableEq α] (le1 : α → α → Bool)
    (le2 : β → β → Bool) (h2 : ∀ x, le2 x x = true) (x : α × β) :
    lexB le1 le2 x x = true := by
  simp [lexB, h2]

theorem rowLe_total (a b : ARow) : rowLe a b = true ∨ rowLe b a = true := by
  unfold rowLe
  exact lexB_total ovLe (lexB strLe scLe) ovLe_total
    (lexB_total strLe scLe strLe_total scLe_total) (sortKey a) (sortKey b)

theorem innerLex_trans {x y z : String × Option ℚ}
    (h1 : lexB strLe scLe x y = true) (h2 : lexB strLe scLe y z = true) :
    lexB strLe scLe x z = true :=
  lexB_trans strLe scLe (fun _ _ _ ha hb => strLe_trans ha hb)
    (fun _ _ ha hb => strLe_antisymm ha hb)
    (fun _ _ _ ha hb => scLe_trans ha hb) h1 h2

theorem rowLe_trans {a b c : ARow} (h1 : rowLe a b = true)
    (h2 : rowLe b c = true) : rowLe a c = true := by
  unfold rowLe at *
  exact lexB_trans ovLe (lexB strLe scLe) (fun _ _ _ ha hb => ovLe_trans ha hb)
    (fun _ _ ha hb => ovLe_antisymm ha hb)
    (fun _ _ _ ha hb => innerLex_trans ha hb) h1 h2

theorem rowLe_of_sortKey_eq {a b : ARow} (h : sortKey a = sortKey b) :
    rowLe a b = true := by
  unfold rowLe
  rw [h]
  exact lexB_refl ovLe (lexB strLe scLe) (lexB_refl strLe scLe scLe_refl) _

/-- Stability of the modelled sort: filtering by any class of mutually tied
elements commutes with `mergeSort`. -/
theorem filter_mergeSort_tied {α : Type} (le : α → α → Bool)
    (htrans : ∀ a b c : α, le a b = true → le b c = true → le a c = true)
    (htotal : ∀ a b : α, (le a b || le b a) = true)
    (p : α → Bool) (hp : ∀ a b, p a = true → p b = true → le a b = true)
    (l : List α) : (l.mergeSort le).filter p = l.filter p := by
  have hpair : (l.filter p).Pairwise fun a b => le a b = true :=
    List.pairwise_of_forall_mem_list fun a ha b hb =>
      hp a b (List.of_mem_filter ha) (List.of_mem_filter hb)
  have hsub : List.Sublist (l.filter p) (l.mergeSort le) :=
    List.sublist_mergeSort htrans htotal hpair (List.filter_sublist l)
  have hself : (l.filter p).filter p = l.filter p :=
    List.filter_eq_self.mpr fun a ha => List.of_mem_filter ha
  have hsub2 : List.Sublist (l.filter p) ((l.mergeSort le).filter p) := by
    have := hsub.filter p
    rwa [hself] at this
  have hlen : ((l.mergeSort le).filter p).length = (l.filter p).length :=
    ((List.mergeSort_perm l le).filter p).length_eq
  exact (hsub2.eq_of_length hlen.symm).symm

/-! Membership lemmas for the pipeline stages. -/

theorem mem_restrictOvacls {t : List Row} {r : Row}
    (h : r ∈ restrictOvacls t) :
    r ∈ t ∧ ∃ q, r.ovacls = some q ∧ q ∈ ALLOWED_OVACLS := by
  unfold restrictOvacls at h
  rcases List.mem_filter.mp h with ⟨hmem, hpred⟩
  refine ⟨hmem, ?_⟩
  cases ho : r.ovacls with
  | none => rw [ho] at hpred; simp at hpred
  | some q =>
    rw [ho] at hpred
    exact ⟨q, rfl, of_decide_eq_true hpred⟩

theorem mem_scoreTable {t : List Row} {s : SRow} :
    s ∈ scoreTable t ↔ ∃ r, r ∈ restrictOvacls t ∧ s = mkSRow (fixSqft r) := by
  simp only [scoreTable, List.mem_map]
  constructor
  · rintro ⟨r, hr, rfl⟩; exact ⟨r, hr, rfl⟩
  · rintro ⟨r, hr, rfl⟩; exact ⟨r, hr, rfl⟩

theorem mem_annotateTable {ts : List SRow} {a : ARow} :
    a ∈ annotateTable ts ↔
      ∃ s ∈ ts, a = ⟨s.row, s.score, lookupAvg (avgTable ts) (groupKey s)⟩ := by
  simp only [annotateTable, List.mem_map]
  constructor
  · rintro ⟨s, hs, rfl⟩; exact ⟨s, hs, rfl⟩
  · rintro ⟨s, hs, rfl⟩; exact ⟨s, hs, rfl⟩

theorem mem_filterAboveAvg {l : List ARow} {a : ARow} :
    a ∈ filterAboveAvg l ↔ a ∈ l ∧ optGt a.score a.avg = true := by
  unfold filterAboveAvg
  exact List.mem_filter

theorem mem_outputRows {t : List Row} {a : ARow} :
    a ∈ outputRows t ↔ a ∈ preSortTable t := by
  unfold outputRows sortRows
  exact List.mem_mergeSort

theorem optGt_iff {x y : Option ℚ} :
    optGt x y = true ↔ ∃ q m, x = some q ∧ y = some m ∧ m < q := by
  cases x <;> cases y <;> simp [optGt]

/-! Lemmas about the group-mean table and its lookup. -/

theorem groupKey_mem_groupKeys {ts : List SRow} {s : SRow} (h : s ∈ ts) :
    groupKey s ∈ groupKeys ts := by
  unfold groupKeys
  exact List.mem_dedup.mpr (List.mem_map_of_mem groupKey h)

theorem lookupAvg_eq {ts : List SRow} {g : Option ℚ × String}
    (hg : g ∈ groupKeys ts) :
    lookupAvg (avgTable ts) g =
      pandasMean ((ts.filter fun s => decide (groupKey s = g)).map SRow.score) := by
  unfold lookupAvg
  cases hf : (avgTable ts).find? fun p => decide (p.1 = g) with
  | none =>
    exfalso
    have hmem :
        (g, pandasMean ((ts.filter fun s => decide (groupKey s = g)).map SRow.score))
          ∈ avgTable ts := by
      unfold avgTable
      exact List.mem_map_of_mem _ hg
    have := List.find?_eq_none.mp hf _ hmem
    simp at this
  | some p =>
    have hp1 : p.1 = g := by
      have := List.find?_some hf
      simpa using this
    have hpm : p ∈ avgTable ts := List.mem_of_find?_eq_some hf
    unfold avgTable at hpm
    rcases List.mem_map.mp hpm with ⟨g', _, hEq⟩
    have hg' : g' = p.1 := by rw [← hEq]
    rw [← hEq]
    simp only [hg', hp1]

/-- The pandas mean of a nonempty, all-equal series is that common value. -/
theorem pandasMean_const {vs : List (Option ℚ)} {c : ℚ}
    (h : ∀ v ∈ vs, v = some c) (hne : vs ≠ []) : pandasMean vs = some c := by
  have key : ∀ (ws : List (Option ℚ)), (∀ v ∈ ws, v = some c) →
      ws.filterMap id = List.replicate ws.length c := by
    intro ws hws
    induction ws with
    | nil => simp
    | cons v tl ih =>
      have hv : v = some c := hws v (List.mem_cons_self _ _)
      rw [hv]
      simp only [List.filterMap_cons, id, List.length_cons, List.replicate_succ]
      rw [ih fun w hw => hws w (List.mem_cons_of_mem _ hw)]
  have hlen : vs.length ≠ 0 := fun h0 => hne (List.length_eq_zero.mp h0)
  unfold pandasMean
  rw [key vs h]
  rw [if_neg (by simpa using hlen)]
  simp only [List.sum_replicate, List.length_replicate, nsmul_eq_mul]
  have hcast : (vs.length : ℚ) ≠ 0 := Nat.cast_ne_zero.mpr hlen
  congr 1
  field_simp

/-- Rounding an integer to two decimals gives back that integer. -/
theorem round2_intCast (n : ℤ) : round2 ((n : ℤ) : ℚ) = n := by
  unfold round2 rndHalfEven
  have h1 : (100 : ℚ) * n = ((100 * n : ℤ) : ℚ) := by push_cast; ring
  rw [h1, Int.floor_intCast]
  rw [if_neg (by simp)]
  rw [round_intCast]
  push_cast
  rw [mul_comm]
  rw [mul_div_assoc]
  norm_num

/-! Small facts about `fixSqft`. -/

theorem fixSqft_ovacls (r : Row) : (fixSqft r).ovacls = r.ovacls := by
  unfold fixSqft
  split <;> rfl

theorem fixSqft_neighborhood (r : Row) :
    (fixSqft r).neighborhood = r.neighborhood := by
  unfold fixSqft
  split <;> rfl

theorem fixSqft_current_building (r : Row) :
    (fixSqft r).current_building = r.current_building := by
  unfold fixSqft
  split <;> rfl

theorem fixSqft_of_ne_zero {r : Row} (h : r.building_sq_ft ≠ some 0) :
    fixSqft r = r := by
  unfold fixSqft
  rw [if_neg h]

/-- Every output row comes from a restricted input row, carries that row's
fixed fields, its score, its group's looked-up average, and passed the
strict above-average comparison. -/
theorem outputRows_structure {t : List Row} {a : ARow}
    (h : a ∈ outputRows t) :
    ∃ r, r ∈ restrictOvacls t ∧
      a.row = fixSqft r ∧
      a.score = scoreVal (fixSqft r) ∧
      a.avg = lookupAvg (avgTable (scoreTable t)) (groupKey (mkSRow (fixSqft r))) ∧
      optGt a.score a.avg = true := by
  rcases mem_filterAboveAvg.mp (mem_outputRows.mp h) with ⟨hmem, hgt⟩
  rcases mem_annotateTable.mp hmem with ⟨s, hs, haeq⟩
  rcases mem_scoreTable.mp hs with ⟨r, hr, hseq⟩
  subst hseq
  subst haeq
  exact ⟨r, hr, rfl, rfl, rfl, hgt⟩

/-! Evaluation lemmas for the concrete tables. -/

theorem scoreVal_pos {r : Row} {a b : ℚ} (hb : r.building_sq_ft = some a)
    (hc : r.current_building = some b) (ha : 0 < a) :
    scoreVal r = some (round2 (b / a)) := by
  unfold scoreVal
  rw [hb, hc]
  show (if 0 < a then some (round2 (b / a)) else some 0) = _
  rw [if_pos ha]

theorem mkSRow_fix_eval {r : Row} {a b : ℚ} (hb : r.building_sq_ft = some a)
    (hc : r.current_building = some b) (ha : 0 < a) {v : ℚ}
    (hv : round2 (b / a) = v) : mkSRow (fixSqft r) = ⟨r, some v⟩ := by
  have hfix : fixSqft r = r := fixSqft_of_ne_zero (by
    rw [hb]
    intro hcc
    exact ne_of_gt ha (Option.some.inj hcc))
  unfold mkSRow
  rw [hfix, scoreVal_pos hb hc ha, hv]

theorem pandasMean_pair (x y : ℚ) :
    pandasMean [some x, some y] = some ((x + y) / 2) := by
  unfold pandasMean
  simp [List.filterMap_cons]

theorem annotate_two_same (s1 s2 : SRow) (hk : groupKey s2 = groupKey s1) :
    annotateTable [s1, s2] =
      [⟨s1.row, s1.score, pandasMean [s1.score, s2.score]⟩,
       ⟨s2.row, s2.score, pandasMean [s1.score, s2.score]⟩] := by
  have hkeys : groupKeys [s1, s2] = [groupKey s1] := by
    unfold groupKeys
    rw [List.map_cons, List.map_cons, List.map_nil, hk]
    rw [List.dedup_cons_of_mem (by simp)]
    rw [List.dedup_cons_of_not_mem (by simp), List.dedup_nil]
  have hfil : ([s1, s2].filter fun s => decide (groupKey s = groupKey s1)) =
      [s1, s2] := by
    apply List.filter_eq_self.mpr
    intro s hs
    rcases List.mem_cons.mp hs with rfl | hs2
    · exact decide_eq_true rfl
    · rcases List.mem_cons.mp hs2 with rfl | hs3
      · exact decide_eq_true hk
      · cases hs3
  have havg : avgTable [s1, s2] =
      [(groupKey s1, pandasMean [s1.score, s2.score])] := by
    unfold avgTable
    rw [hkeys, List.map_cons, List.map_nil, hfil]
    rfl
  have hfind : List.find? (fun p => decide (p.1 = groupKey s1))
      [(groupKey s1, pandasMean [s1.score, s2.score])] =
      some (groupKey s1, pandasMean [s1.score, s2.score]) :=
    List.find?_cons_of_pos _ (decide_eq_true rfl)
  have hlook : lookupAvg (avgTable [s1, s2]) (groupKey s1) =
      pandasMean [s1.score, s2.score] := by
    rw [havg]
    unfold lookupAvg
    rw [hfind]
  have hlook2 : lookupAvg (avgTable [s1, s2]) (groupKey s2) =
      pandasMean [s1.score, s2.score] := by
    rw [hk]
    exact hlook
  unfold annotateTable
  rw [List.map_cons, List.map_cons, List.map_nil]
  rw [hlook, hlook2]

theorem restrict_pair_201 {r1 r2 : Row} (h1 : r1.ovacls = some 201)
    (h2 : r2.ovacls = some 201) : restrictOvacls [r1, r2] = [r1, r2] := by
  unfold restrictOvacls
  apply List.filter_eq_self.mpr
  intro r hr
  have hov : r.ovacls = some 201 := by
    rcases List.mem_cons.mp hr with rfl | hs2
    · exact h1
    · rcases List.mem_cons.mp hs2 with rfl | hs3
      · exact h2
      · cases hs3
  rw [hov]
  exact decide_eq_true (by simp [ALLOWED_OVACLS])

theorem scoreTable_tAB : scoreTable tAB = [sA, sB] := by
  unfold scoreTable tAB
  rw [restrict_pair_201 rfl rfl]
  rw [List.map_cons, List.map_cons, List.map_nil]
  rw [show mkSRow (fixSqft rA) = sA from mkSRow_fix_eval rfl rfl (by norm_num)
    (by rw [show (10 : ℚ) / 1 = ((10 : ℤ) : ℚ) by norm_num, round2_intCast]; norm_num)]
  rw [show mkSRow (fixSqft rB) = sB from mkSRow_fix_eval rfl rfl (by norm_num)
    (by rw [show (20 : ℚ) / 1 = ((20 : ℤ) : ℚ) by norm_num, round2_intCast]; norm_num)]

theorem annotate_tAB : annotateTable (scoreTable tAB) = [aA, aB] := by
  rw [scoreTable_tAB]
  rw [annotate_two_same sA sB rfl]
  rw [show pandasMean [sA.score, sB.score] = some 15 by
    rw [show sA.score = some 10 from rfl, show sB.score = some 20 from rfl]
    rw [pandasMean_pair]
    norm_num]
  rfl

theorem preSort_tAB : preSortTable tAB = [aB] := by
  unfold preSortTable
  rw [annotate_tAB]
  unfold filterAboveAvg
  rw [List.filter_cons, List.filter_cons, List.filter_nil]
  rw [if_neg (by
    show ¬ (optGt aA.score aA.avg = true)
    show ¬ (decide ((15 : ℚ) < 10) = true)
    rw [decide_eq_false (by norm_num)]
    simp)]
  rw [if_pos (by
    show optGt aB.score aB.avg = true
    show decide ((15 : ℚ) < 20) = true
    exact decide_eq_true (by norm_num))]

theorem output_tAB : outputRows tAB = [aB] := by
  unfold outputRows sortRows
  rw [preSort_tAB]
  exact List.mergeSort_singleton aB

theorem aB_mem_output : aB ∈ outputRows tAB := by
  rw [output_tAB]
  exact List.mem_singleton.mpr rfl

theorem aA_mem_annotate : aA ∈ annotateTable (scoreTable tAB) := by
  rw [annotate_tAB]
  exact List.mem_cons_self _ _

/-- The sq-ft-fixed version of `rZ`. -/
theorem fixSqft_rZ :
    fixSqft rZ = ⟨some 201, "Z", some (1 / 10000), some 5, none, 0⟩ := by
  unfold fixSqft rZ
  rw [if_pos rfl]

theorem scoreTable_tZW :
    scoreTable tZW =
      [⟨⟨some 201, "Z", some (1 / 10000), some 5, none, 0⟩, some 50000⟩,
       ⟨rW, some 10⟩] := by
  unfold scoreTable tZW
  rw [restrict_pair_201 rfl rfl]
  rw [List.map_cons, List.map_cons, List.map_nil]
  rw [show mkSRow (fixSqft rZ) =
      (⟨⟨some 201, "Z", some (1 / 10000), some 5, none, 0⟩, some 50000⟩ : SRow) by
    unfold mkSRow
    rw [fixSqft_rZ]
    rw [show scoreVal (⟨some 201, "Z", some (1 / 10000), some 5, none, 0⟩ : Row) =
        some 50000 by
      rw [scoreVal_pos rfl rfl (by norm_num)]
      rw [show (5 : ℚ) / (1 / 10000) = ((50000 : ℤ) : ℚ) by norm_num, round2_intCast]
      norm_num]]
  rw [show mkSRow (fixSqft rW) = (⟨rW, some 10⟩ : SRow) from
    mkSRow_fix_eval rfl rfl (by norm_num)
      (by rw [show (10 : ℚ) / 1 = ((10 : ℤ) : ℚ) by norm_num, round2_intCast]; norm_num)]

theorem output_tZW : outputRows tZW = [outRowZ] := by
  unfold outputRows sortRows preSortTable
  rw [scoreTable_tZW]
  rw [annotate_two_same
    (⟨⟨some 201, "Z", some (1 / 10000), some 5, none, 0⟩, some 50000⟩ : SRow)
    (⟨rW, some 10⟩ : SRow) rfl]
  rw [show pandasMean [some 50000, some 10] = some 25005 by
    rw [pandasMean_pair]
    norm_num]
  unfold filterAboveAvg
  rw [List.filter_cons, List.filter_cons, List.filter_nil]
  dsimp only
  rw [if_pos (by
    rw [show optGt (some 50000) (some (25005 : ℚ)) =
      decide ((25005 : ℚ) < 50000) from rfl]
    exact decide_eq_true (by norm_num))]
  rw [if_neg (by
    show ¬ (optGt (some 10) (some (25005 : ℚ)) = true)
    rw [show optGt (some 10) (some (25005 : ℚ)) = decide ((25005 : ℚ) < 10) from rfl]
    rw [decide_eq_false (by norm_num)]
    simp)]
  exact List.mergeSort_singleton _

theorem outRowZ_mem : outRowZ ∈ outputRows tZW := by
  rw [output_tZW]
  exact List.mem_singleton.mpr rfl

theorem scoreTable_tTie : scoreTable tTie = [⟨rT1, some 10⟩, ⟨rT2, some 10⟩] := by
  unfold scoreTable tTie
  rw [restrict_pair_201 rfl rfl]
  rw [List.map_cons, List.map_cons, List.map_nil]
  rw [show mkSRow (fixSqft rT1) = (⟨rT1, some 10⟩ : SRow) from
    mkSRow_fix_eval rfl rfl (by norm_num)
      (by rw [show (10 : ℚ) / 1 = ((10 : ℤ) : ℚ) by norm_num, round2_intCast]; norm_num)]
  rw [show mkSRow (fixSqft rT2) = (⟨rT2, some 10⟩ : SRow) from
    mkSRow_fix_eval rfl rfl (by norm_num)
      (by rw [show (10 : ℚ) / 1 = ((10 : ℤ) : ℚ) by norm_num, round2_intCast]; norm_num)]

theorem preSort_tTie : preSortTable tTie = [] := by
  unfold preSortTable
  rw [scoreTable_tTie]
  rw [annotate_two_same (⟨rT1, some 10⟩ : SRow) (⟨rT2, some 10⟩ : SRow) rfl]
  rw [show pandasMean [some 10, some 10] = some 10 by
    rw [pandasMean_pair]
    norm_num]
  unfold filterAboveAvg
  rw [List.filter_cons, List.filter_cons, List.filter_nil]
  dsimp only
  rw [if_neg (by
    show ¬ (optGt (some 10) (some (10 : ℚ)) = true)
    rw [show optGt (some 10) (some (10 : ℚ)) = decide ((10 : ℚ) < 10) from rfl]
    rw [decide_eq_false (by norm_num)]
    simp)]
  rw [if_neg (by
    show ¬ (optGt (some 10) (some (10 : ℚ)) = true)
    rw [show optGt (some 10) (some (10 : ℚ)) = decide ((10 : ℚ) < 10) from rfl]
    rw [decide_eq_false (by norm_num)]
    simp)]

theorem restrict_tTie_ne : restrictOvacls tTie ≠ [] := by
  unfold tTie
  rw [restrict_pair_201 rfl rfl]
  simp

theorem restrict_tBad : restrictOvacls tBad = [] := by
  unfold restrictOvacls tBad
  rw [List.filter_cons, List.filter_nil]
  rw [if_neg (by
    show ¬ (decide ((999 : ℚ) ∈ ALLOWED_OVACLS) = true)
    rw [decide_eq_false (by norm_num [ALLOWED_OVACLS])]
    simp)]

/-! The claims. -/

/-- C1, counterexample: the claim says the computed SCORE is `0` whenever
the coerced area is `<= 0`, "including denominators that were originally
zero and were replaced by the 0.0001 epsilon".  The code instead replaces a
zero `BUILDING_SQ_FT` by `0.0001 > 0` before the conditional, so for the
row below (area `0`, improvement value `5`) the computed SCORE is
`round(5 / 0.0001, 2) = 50000`, not `0`. -/
theorem C1_counterexample :
    (⟨some 201, "A", some 0, some 5, none, 0⟩ : Row).building_sq_ft = some 0 ∧
    scoreVal (fixSqft (⟨some 201, "A", some 0, some 5, none, 0⟩ : Row)) =
      some 50000 ∧
    (50000 : ℚ) ≠ 0 ∧
    (scoreTable [⟨some 201, "A", some 0, some 5, none, 0⟩]).map SRow.score =
      [some 50000] := by
  have hdiv : (5 : ℚ) / (1 / 10000) = ((50000 : ℤ) : ℚ) := by norm_num
  have hfix : fixSqft (⟨some 201, "A", some 0, some 5, none, 0⟩ : Row) =
      ⟨some 201, "A", some (1 / 10000), some 5, none, 0⟩ := by
    unfold fixSqft
    rw [if_pos rfl]
  have hscore : scoreVal (fixSqft (⟨some 201, "A", some 0, some 5, none, 0⟩ : Row)) =
      some 50000 := by
    rw [hfix]
    unfold scoreVal
    simp only
    rw [if_pos (by norm_num)]
    rw [hdiv, round2_intCast]
    norm_num
  refine ⟨rfl, hscore, by norm_num, ?_⟩
  have hres : restrictOvacls [(⟨some 201, "A", some 0, some 5, none, 0⟩ : Row)] =
      [(⟨some 201, "A", some 0, some 5, none, 0⟩ : Row)] := by
    unfold restrictOvacls
    rw [List.filter_cons]
    norm_num [ALLOWED_OVACLS]
  unfold scoreTable
  rw [hres]
  simp only [List.map_cons, List.map_nil, mkSRow]
  rw [hscore]

/-- C1, amended: the score is `0` exactly when the effective denominator is
not positive, i.e. when the coerced area is negative or missing; an
originally-zero area is replaced by the epsilon `0.0001` and scored as
`round(improvement_value / 0.0001, 2)` (missing if the numerator is
missing); a positive area is scored as `round(improvement_value / area, 2)`
(missing if the numerator is missing); no division error occurs, and no
missing (NaN) score ever reaches the output. -/
theorem C1_score_cases :
    (∀ r : Row, r.building_sq_ft = none → scoreVal (fixSqft r) = some 0) ∧
    (∀ (r : Row) (a : ℚ), r.building_sq_ft = some a → a < 0 →
      scoreVal (fixSqft r) = some 0) ∧
    (∀ r : Row, r.building_sq_ft = some 0 →
      scoreVal (fixSqft r) =
        r.current_building.map fun b => round2 (b / (1 / 10000))) ∧
    (∀ (r : Row) (a : ℚ), r.building_sq_ft = some a → 0 < a →
      scoreVal (fixSqft r) = r.current_building.map fun b => round2 (b / a)) ∧
    (∀ (t : List Row) (x : ARow), x ∈ outputRows t → ∃ q, x.score = some q) := by
  refine ⟨?_, ?_, ?_, ?_, ?_⟩
  · intro r h
    have hfix : fixSqft r = r := fixSqft_of_ne_zero (by rw [h]; simp)
    rw [hfix]
    unfold scoreVal
    rw [h]
  · intro r a h ha
    have hfix : fixSqft r = r := fixSqft_of_ne_zero (by
      rw [h]
      intro hc
      exact ne_of_lt ha (Option.some.inj hc))
    rw [hfix]
    unfold scoreVal
    rw [h]
    show (if 0 < a then
        (match r.current_building with
          | some b => some (round2 (b / a))
          | none => none)
      else some 0) = some 0
    rw [if_neg (not_lt.mpr (le_of_lt ha))]
  · intro r h
    have hfix : (fixSqft r).building_sq_ft = some (1 / 10000) := by
      unfold fixSqft
      rw [if_pos h]
    unfold scoreVal
    rw [hfix, fixSqft_current_building]
    show (if (0 : ℚ) < 1 / 10000 then
        (match r.current_building with
          | some b => some (round2 (b / (1 / 10000)))
          | none => none)
      else some 0) = _
    rw [if_pos (by norm_num)]
    cases r.current_building <;> rfl
  · intro r a h ha
    have hfix : fixSqft r = r := fixSqft_of_ne_zero (by
      rw [h]
      intro hc
      exact ne_of_gt ha (Option.some.inj hc))
    rw [hfix]
    unfold scoreVal
    rw [h]
    show (if 0 < a then
        (match r.current_building with
          | some b => some (round2 (b / a))
          | none => none)
      else some 0) = _
    rw [if_pos ha]
    cases r.current_building <;> rfl
  · intro t x hx
    rcases outputRows_structure hx with ⟨r, _, _, _, _, hgt⟩
    rcases optGt_iff.mp hgt with ⟨q, m, hq, _, _⟩
    exact ⟨q, hq⟩

/-- C1 witness: the amended theorem applied at concrete inputs — a missing
area scores `0`, a negative area scores `0`, and a positive area `4` with
value `10` scores `round(10 / 4, 2)`. -/
theorem C1_score_cases_witness :
    scoreVal (fixSqft ⟨some 201, "A", none, some 7, none, 0⟩) = some 0 ∧
    scoreVal (fixSqft ⟨some 201, "A", some (-2), some 7, none, 0⟩) = some 0 ∧
    scoreVal (fixSqft ⟨some 201, "A", some 4, some 10, none, 0⟩) =
      some (round2 (10 / 4)) := by
  refine ⟨C1_score_cases.1 _ rfl, C1_score_cases.2.1 _ (-2) rfl (by norm_num), ?_⟩
  have h := C1_score_cases.2.2.2.1 ⟨some 201, "A", some 4, some 10, none, 0⟩ 4
    rfl (by norm_num)
  rw [h]
  rfl

/-- C5: a record whose coerced OVACLS is not in the fixed 14-element
allowed set never appears in the output of the main pipeline: every output
row's OVACLS is a member of `ALLOWED_OVACLS`. -/
theorem C5_allowed_ovacls_only :
    ∀ (t : List Row) (a : ARow), a ∈ outputRows t →
      ∃ q, a.row.ovacls = some q ∧ q ∈ ALLOWED_OVACLS := by
  intro t a h
  rcases outputRows_structure h with ⟨r, hr, hrow, -⟩
  rcases (mem_restrictOvacls hr).2 with ⟨q, hq, hmem⟩
  refine ⟨q, ?_, hmem⟩
  rw [hrow, fixSqft_ovacls]
  exact hq

/-- C5 witness: the theorem applied to a surviving row of a two-row table
(scores 10 and 20, group mean 15, so the 20-row survives). -/
theorem C5_allowed_ovacls_only_witness :
    ∃ q, (aB.row.ovacls = some q ∧ q ∈ ALLOWED_OVACLS) :=
  C5_allowed_ovacls_only tAB aB aB_mem_output

/-- C9: the epsilon substitution is visible in the returned table — every
output row equals the sq-ft-fixed version of some restricted input row, and
whenever that input row's coerced area was exactly `0`, the output row
carries `0.0001` instead, differing from the input value. -/
theorem C9_epsilon_substitution_visible :
    ∀ (t : List Row) (a : ARow), a ∈ outputRows t →
      ∃ r, r ∈ restrictOvacls t ∧ a.row = fixSqft r ∧
        (r.building_sq_ft = some 0 →
          a.row.building_sq_ft = some (1 / 10000) ∧
          a.row.building_sq_ft ≠ r.building_sq_ft) := by
  intro t a h
  rcases outputRows_structure h with ⟨r, hr, hrow, -⟩
  refine ⟨r, hr, hrow, fun h0 => ?_⟩
  have hbs : (fixSqft r).building_sq_ft = some (1 / 10000) := by
    unfold fixSqft
    rw [if_pos h0]
  constructor
  · rw [hrow, hbs]
  · rw [hrow, hbs, h0]
    intro hc
    have : (1 : ℚ) / 10000 = 0 := Option.some.inj hc
    norm_num at this

/-- C10: a record whose improvement value fails coercion while its coerced
area is positive gets a missing (NaN) score, and no output row's score is
missing — the NaN rows are removed by the strict above-mean comparison. -/
theorem C10_nan_score_never_output :
    (∀ (r : Row) (a : ℚ), r.current_building = none → r.building_sq_ft = some a →
      0 < a → scoreVal (fixSqft r) = none) ∧
    (∀ (t : List Row) (x : ARow), x ∈ outputRows t → x.score ≠ none) := by
  constructor
  · intro r a hb h ha
    have hfix : fixSqft r = r := fixSqft_of_ne_zero (by
      rw [h]
      intro hc
      exact ne_of_gt ha (Option.some.inj hc))
    rw [hfix]
    unfold scoreVal
    rw [h, hb]
    show (if 0 < a then (none : Option ℚ) else some 0) = none
    rw [if_pos ha]
  · intro t x hx
    rcases outputRows_structure hx with ⟨r, -, -, -, -, hgt⟩
    rcases optGt_iff.mp hgt with ⟨q, m, hq, -, -⟩
    rw [hq]
    simp

/-- C9 witness: the theorem applied to the surviving zero-area row of
`tZW`, whose output area column shows `0.0001`. -/
theorem C9_epsilon_substitution_visible_witness :
    ∃ r, r ∈ restrictOvacls tZW ∧ outRowZ.row = fixSqft r ∧
      (r.building_sq_ft = some 0 →
        outRowZ.row.building_sq_ft = some (1 / 10000) ∧
        outRowZ.row.building_sq_ft ≠ r.building_sq_ft) :=
  C9_epsilon_substitution_visible tZW outRowZ outRowZ_mem

/-- C10 witness: a row with un-coercible improvement value and area 2 gets
a missing score, and the surviving row of `tAB` has a non-missing score. -/
theorem C10_nan_score_never_output_witness :
    scoreVal (fixSqft ⟨some 201, "A", some 2, none, none, 0⟩) = none ∧
    aB.score ≠ none :=
  ⟨C10_nan_score_never_output.1 _ 2 rfl rfl (by norm_num),
   C10_nan_score_never_output.2 tAB aB aB_mem_output⟩

/-- C2: the `AVG_SCORE` annotated onto each record equals the pandas mean
of `SCORE` over exactly the records of the category-restricted, scored,
pre-filter table that share the record's group key. -/
theorem C2_group_mean_pre_filter :
    ∀ (t : List Row) (a : ARow), a ∈ annotateTable (scoreTable t) →
      a.avg = pandasMean (((scoreTable t).filter fun s =>
        decide (groupKey s = (a.row.ovacls, a.row.neighborhood))).map SRow.score) := by
  intro t a h
  rcases mem_annotateTable.mp h with ⟨s, hs, haeq⟩
  subst haeq
  rw [lookupAvg_eq (groupKey_mem_groupKeys hs)]
  rfl

/-- C2 witness: the theorem applied to the first annotated row of `tAB`
(where the group mean is 15). -/
theorem C2_group_mean_pre_filter_witness :
    aA.avg = pandasMean (((scoreTable tAB).filter fun s =>
      decide (groupKey s = (aA.row.ovacls, aA.row.neighborhood))).map SRow.score) :=
  C2_group_mean_pre_filter tAB aA aA_mem_annotate

/-- C3: every output record's score is strictly greater than its group's
annotated mean, and a group whose records all tie at one score contributes
no output record at all. -/
theorem C3_strictly_above_mean :
    (∀ (t : List Row) (a : ARow), a ∈ outputRows t →
      ∃ q m, a.score = some q ∧ a.avg = some m ∧ m < q) ∧
    (∀ (t : List Row) (g : Option ℚ × String) (c : ℚ),
      (∀ s ∈ scoreTable t, groupKey s = g → s.score = some c) →
      ∀ a ∈ outputRows t, (a.row.ovacls, a.row.neighborhood) ≠ g) := by
  constructor
  · intro t a h
    rcases outputRows_structure h with ⟨r, -, -, -, -, hgt⟩
    exact optGt_iff.mp hgt
  · intro t g c hall a ha hkey
    rcases mem_filterAboveAvg.mp (mem_outputRows.mp ha) with ⟨hmem, hgt⟩
    rcases mem_annotateTable.mp hmem with ⟨s, hs, haeq⟩
    subst haeq
    have hk : groupKey s = g := hkey
    have hscore : s.score = some c := hall s hs hk
    have hmean :
        pandasMean (((scoreTable t).filter fun x =>
          decide (groupKey x = groupKey s)).map SRow.score) = some c := by
      apply pandasMean_const
      · intro v hv
        rcases List.mem_map.mp hv with ⟨s2, hs2, hveq⟩
        rcases List.mem_filter.mp hs2 with ⟨hs2m, hs2k⟩
        rw [← hveq]
        exact hall s2 hs2m ((of_decide_eq_true hs2k).trans hk)
      · intro hnil
        have hsin : s ∈ (scoreTable t).filter fun x =>
            decide (groupKey x = groupKey s) :=
          List.mem_filter.mpr ⟨hs, decide_eq_true rfl⟩
        have hscin : s.score ∈ ((scoreTable t).filter fun x =>
            decide (groupKey x = groupKey s)).map SRow.score :=
          List.mem_map_of_mem _ hsin
        rw [hnil] at hscin
        cases hscin
    have havg : lookupAvg (avgTable (scoreTable t)) (groupKey s) = some c := by
      rw [lookupAvg_eq (groupKey_mem_groupKeys hs)]
      exact hmean
    dsimp only at hgt
    rw [hscore, havg] at hgt
    rcases optGt_iff.mp hgt with ⟨q, m, hq, hm, hlt⟩
    have hq2 : c = q := Option.some.inj hq
    have hm2 : c = m := Option.some.inj hm
    rw [← hq2, ← hm2] at hlt
    exact lt_irrefl c hlt

/-- C3 witness: in `tAB` the surviving row's score 20 strictly exceeds the
mean 15; in the all-tie table `tTie` (both scores 10) no row of the tied
group survives. -/
theorem C3_strictly_above_mean_witness :
    (∃ q m, aB.score = some q ∧ aB.avg = some m ∧ m < q) ∧
    (∀ a ∈ outputRows tTie, (a.row.ovacls, a.row.neighborhood) ≠ (some 201, "T")) :=
  ⟨C3_strictly_above_mean.1 tAB aB aB_mem_output,
   C3_strictly_above_mean.2 tTie (some 201, "T") 10 (by
     rw [scoreTable_tTie]
     intro s hs hk
     rcases List.mem_cons.mp hs with rfl | hs2
     · rfl
     · rcases List.mem_cons.mp hs2 with rfl | hs3
       · rfl
       · cases hs3)⟩

/-- C6: after loading, the main pipeline fails exactly when the OVACLS
restriction alone leaves zero records (line 86); when the restriction
leaves records, the pipeline returns `ok`, and in particular an empty
above-average filter result is returned as an empty table, not an error. -/
theorem C6_empty_vs_error :
    ∀ t : List Row,
      (mainPipeline t = .error "No records found with allowed OVACLS codes" ↔
        restrictOvacls t = []) ∧
      (restrictOvacls t ≠ [] → mainPipeline t = .ok (outputRows t)) ∧
      (restrictOvacls t ≠ [] → preSortTable t = [] → mainPipeline t = .ok []) := by
  intro t
  refine ⟨⟨?_, ?_⟩, ?_, ?_⟩
  · intro h
    by_cases hr : restrictOvacls t = []
    · exact hr
    · unfold mainPipeline at h
      rw [if_neg hr] at h
      cases h
  · intro h
    unfold mainPipeline
    rw [if_pos h]
  · intro h
    unfold mainPipeline
    rw [if_neg h]
  · intro h hpre
    unfold mainPipeline
    rw [if_neg h]
    unfold outputRows sortRows
    rw [hpre, List.mergeSort_nil]

/-- C6 witness: a table with only the disallowed code 999 raises the
empty-restriction error, while the all-tie table (restriction nonempty,
filter empties everything) returns an empty `ok` result. -/
theorem C6_empty_vs_error_witness :
    mainPipeline tBad = .error "No records found with allowed OVACLS codes" ∧
    mainPipeline tTie = .ok [] :=
  ⟨(C6_empty_vs_error tBad).1.mpr restrict_tBad,
   (C6_empty_vs_error tTie).2.2 restrict_tTie_ne preSort_tTie⟩

/-- C7: the output is sorted by the lexicographic order (OVACLS ascending,
NEIGHBORHOOD ascending, SCORE descending), it is a permutation of the
pre-sort (filtered) table, and rows tied on all three sort keys keep their
pre-sort relative order (the sort is stable). -/
theorem C7_sorted_stable :
    ∀ t : List Row,
      List.Pairwise (fun a b => rowLe a b = true) (outputRows t) ∧
      List.Perm (outputRows t) (preSortTable t) ∧
      ∀ k : Option ℚ × String × Option ℚ,
        (outputRows t).filter (fun a => decide (sortKey a = k)) =
          (preSortTable t).filter (fun a => decide (sortKey a = k)) := by
  intro t
  refine ⟨?_, ?_, ?_⟩
  · unfold outputRows sortRows
    exact @List.sorted_mergeSort ARow rowLe
      (fun a b c hab hbc => rowLe_trans hab hbc)
      (fun a b => by rcases rowLe_total a b with h | h <;> simp [h])
      (preSortTable t)
  · unfold outputRows sortRows
    exact List.mergeSort_perm _ _
  · intro k
    unfold outputRows sortRows
    apply filter_mergeSort_tied
    · exact fun a b c hab hbc => rowLe_trans hab hbc
    · exact fun a b => by rcases rowLe_total a b with h | h <;> simp [h]
    · intro a b ha hb
      exact rowLe_of_sortKey_eq
        ((of_decide_eq_true ha).trans (of_decide_eq_true hb).symm)

/-- C8: the loader's schema check fails iff some required column is absent,
the error message lists exactly the missing columns (in required-list
order), and the missing-column list is characterized pointwise. -/
theorem C8_schema_check :
    ∀ cols : List String,
      (checkSchema cols = .error ("Missing columns: " ++
          String.intercalate ", " (missingColumns cols)) ↔
        missingColumns cols ≠ []) ∧
      (checkSchema cols = .ok () ↔ missingColumns cols = []) ∧
      (∀ c, c ∈ missingColumns cols ↔ c ∈ requiredColumns ∧ ¬ c ∈ cols) ∧
      (missingColumns cols = [] ↔ ∀ c ∈ requiredColumns, c ∈ cols) := by
  intro cols
  have hcont : ∀ c, cols.contains c = true ↔ c ∈ cols := fun c => List.elem_iff
  have hmem : ∀ c, c ∈ missingColumns cols ↔ c ∈ requiredColumns ∧ ¬ c ∈ cols := by
    intro c
    unfold missingColumns
    rw [List.mem_filter]
    constructor
    · rintro ⟨h1, h2⟩
      refine ⟨h1, fun hc => ?_⟩
      have h3 : cols.contains c = true := (hcont c).mpr hc
      rw [h3] at h2
      simp at h2
    · rintro ⟨h1, h2⟩
      refine ⟨h1, ?_⟩
      have h3 : cols.contains c = false := by
        cases hcc : cols.contains c
        · rfl
        · exact absurd ((hcont c).mp hcc) h2
      rw [h3]
      rfl
  have hnil : missingColumns cols = [] ↔ ∀ c ∈ requiredColumns, c ∈ cols := by
    unfold missingColumns
    rw [List.filter_eq_nil_iff]
    constructor
    · intro h c hc
      by_contra hcc
      apply h c hc
      have h3 : cols.contains c = false := by
        cases hcc2 : cols.contains c
        · rfl
        · exact absurd ((hcont c).mp hcc2) hcc
      rw [h3]
      rfl
    · intro h c hc hpred
      rw [Bool.not_eq_true'] at hpred
      have h3 := (hcont c).mpr (h c hc)
      rw [h3] at hpred
      cases hpred
  refine ⟨⟨?_, ?_⟩, ⟨?_, ?_⟩, hmem, hnil⟩
  · intro h hn
    unfold checkSchema at h
    rw [if_pos hn] at h
    cases h
  · intro h
    unfold checkSchema
    rw [if_neg h]
  · intro h
    by_contra hn
    unfold checkSchema at h
    rw [if_neg hn] at h
    cases h
  · intro h
    unfold checkSchema
    rw [if_pos h]

/-- C8 witness: with no columns at all, every required column is missing,
the check fails with the message listing them, and "OVACLS" is among the
missing columns. -/
theorem C8_schema_check_witness :
    (checkSchema [] = .error ("Missing columns: " ++
        String.intercalate ", " (missingColumns []))) ∧
    ("OVACLS" ∈ missingColumns [] ↔
      "OVACLS" ∈ requiredColumns ∧ ¬ "OVACLS" ∈ ([] : List String)) ∧
    checkSchema ["OVACLS", "NEIGHBORHOOD", "BUILDING_SQ_FT", "CURRENT_BUILDING"]
      = .ok () := by
  refine ⟨(C8_schema_check []).1.mpr ?_, (C8_schema_check []).2.2.1 "OVACLS",
    (C8_schema_check ["OVACLS", "NEIGHBORHOOD", "BUILDING_SQ_FT",
      "CURRENT_BUILDING"]).2.1.mpr ?_⟩
  · intro h
    have h2 := (C8_schema_check []).2.2.2.mp h "OVACLS" (by
      unfold requiredColumns
      exact List.mem_cons_self _ _)
    cases h2
  · rw [(C8_schema_check _).2.2.2]
    intro c hc
    exact hc

/-- C4: calling the entry point with an identifier runs the PIN pipeline —
whenever it succeeds, the result is the scored resolved reference record
prepended to peers, and every peer has its area in the inclusive tolerance
band around the reference's (fixed) area, the reference's category code and
zone, and a score strictly below the reference's. -/
theorem C4_pin_entry :
    ∀ (t : List Row) (pid : PinVal) (tol : ℚ) (res : List ARow ⊕ List SRow),
      processEntry t (some pid) tol = .ok res →
      ∃ ref peers, resolveRef t pid = some ref ∧
        res = .inr (mkSRow (fixSqft ref) :: peers) ∧
        ∀ s ∈ peers,
          (∃ a ar, s.row.building_sq_ft = some a ∧
            (fixSqft ref).building_sq_ft = some ar ∧
            ar * (1 - tol / 100) ≤ a ∧ a ≤ ar * (1 + tol / 100)) ∧
          s.row.ovacls = ref.ovacls ∧
          s.row.neighborhood = ref.neighborhood ∧
          ∃ q qr, s.score = some q ∧ scoreVal (fixSqft ref) = some qr ∧ q < qr := by
  intro t pid tol res h
  unfold processEntry matchPeers at h
  dsimp only at h
  cases hres : resolveRef t pid with
  | none =>
    rw [hres] at h
    simp [Except.map] at h
  | some ref =>
    rw [hres] at h
    simp only [Except.map] at h
    injection h with h2
    refine ⟨ref, pinPeers t ref tol, rfl, h2.symm, ?_⟩
    intro s hs
    rcases List.mem_filter.mp hs with ⟨-, hpred⟩
    rw [Bool.and_eq_true, Bool.and_eq_true, Bool.and_eq_true] at hpred
    obtain ⟨⟨⟨hband, hgt⟩, hov⟩, hnb⟩ := hpred
    refine ⟨?_, ?_, ?_, ?_⟩
    · simp only [mkSRow] at hband
      cases ha : s.row.building_sq_ft with
      | none =>
        rw [ha] at hband
        simp at hband
      | some a =>
        cases har : (fixSqft ref).building_sq_ft with
        | none =>
          rw [ha, har] at hband
          simp at hband
        | some ar =>
          rw [ha, har] at hband
          simp only at hband
          unfold pinBand at hband
          rw [Bool.and_eq_true] at hband
          exact ⟨a, ar, rfl, rfl,
            of_decide_eq_true hband.1, of_decide_eq_true hband.2⟩
    · rw [of_decide_eq_true hov]
      exact fixSqft_ovacls ref
    · rw [of_decide_eq_true hnb]
      exact fixSqft_neighborhood ref
    · rcases optGt_iff.mp hgt with ⟨qr, q, hqr, hq, hlt⟩
      exact ⟨q, qr, hq, hqr, hlt⟩

/-- C4 witness: the theorem applied to the two-row PIN table, identifier
"X", tolerance 15, whose entry-point result is computed explicitly. -/
theorem C4_pin_entry_witness :
    ∃ ref peers, resolveRef tPin (PinVal.str "X") = some ref ∧
      (Sum.inr (mkSRow (fixSqft refP) :: pinPeers tPin refP 15) :
          List ARow ⊕ List SRow) =
        .inr (mkSRow (fixSqft ref) :: peers) ∧
      ∀ s ∈ peers,
        (∃ a ar, s.row.building_sq_ft = some a ∧
          (fixSqft ref).building_sq_ft = some ar ∧
          ar * (1 - 15 / 100) ≤ a ∧ a ≤ ar * (1 + 15 / 100)) ∧
        s.row.ovacls = ref.ovacls ∧
        s.row.neighborhood = ref.neighborhood ∧
        ∃ q qr, s.score = some q ∧ scoreVal (fixSqft ref) = some qr ∧ q < qr := by
  have hres : resolveRef tPin (PinVal.str "X") = some refP := by
    unfold resolveRef firstMatch tPin
    rw [List.filter_cons]
    rw [if_pos (show decide (refP.pin = some (PinVal.str "X")) = true from
      decide_eq_true rfl)]
    rfl
  exact C4_pin_entry tPin (PinVal.str "X") 15
    (.inr (mkSRow (fixSqft refP) :: pinPeers tPin refP 15))
    (by
      unfold processEntry matchPeers
      dsimp only
      rw [hres]
      rfl)

end ExcelProc
